import Mathlib

/-!
Verification of `mayan/apps/quotas/quota_backends.py`: the two quota
backends `DocumentCountQuota` and `DocumentSizeQuota`.

The embedding models the Django objects the module touches:

* a `User` carries a primary key, the `is_superuser` / `is_staff` flags
  and the ids of the groups it belongs to;
* a `DocumentRow` is a persisted document together with its
  `target_actions` audit records (verb and, when the actor is a user,
  the actor's primary key);
* the candidate model instances carry an optional primary key (Python
  truthiness of `instance.pk`: `None` and `0` are both falsy);
* `kwargs` access is explicit: `Option (Option User)` distinguishes an
  absent `user` key (`none`, where `kwargs['user']` raises `KeyError`
  and `kwargs.get('user')` yields `None`) from a key bound to `None`
  (`some none`);
* raising is modelled with `Except`: `QuotaExceeded` and `KeyError`
  are the two error shapes the module can produce;
* `document_size_limit` is a `FloatField`; its only arithmetic use is
  multiplication by 1024 twice, which is exact in binary floating
  point for in-range values, so the field is embedded as `ℚ`.

The size-quota comparison `kwargs['instance'].file.size >= self._allowed()`
and the count comparison `count >= self._allowed()` are kept as written.
-/

namespace Quotas

/-- A Django user as far as the quota module reads it. -/
structure User where
  pk : Nat
  is_superuser : Bool
  is_staff : Bool
  groups : List Nat
deriving Repr, DecidableEq

/-- One `target_actions` audit record attached to a document:
its verb, and the actor's user primary key when the actor content
type is the user model (otherwise `none`). -/
structure TargetAction where
  verb : String
  actor_pk : Option Nat
deriving Repr, DecidableEq

/-- A persisted document row: its type id and its audit actions. -/
structure DocumentRow where
  document_type_id : Nat
  target_actions : List TargetAction
deriving Repr, DecidableEq

/-- The id of `event_document_create`, the "document created" event. -/
def event_document_create_id : String := "documents.document_create"

/-- The candidate `Document` instance handed to the pre-save signal.
`DocumentCountQuota.process` reads only `pk`; the type id is carried
because the document does have one. -/
structure DocumentInstance where
  pk : Option Nat
  document_type_id : Nat
deriving Repr, DecidableEq

/-- The candidate `DocumentVersion` instance: `pk`, `file.size` in
bytes, and `document.document_type.pk`. -/
structure DocumentVersionInstance where
  pk : Option Nat
  file_size : Nat
  document_type_id : Nat
deriving Repr, DecidableEq

/-- Python truthiness of `instance.pk` (`None` and `0` are falsy). -/
def pkTruthy : Option Nat → Bool
  | none => false
  | some n => n != 0

/-- Errors the module can raise. -/
inductive PyError where
  | quotaExceeded (msg : String)
  | keyError (key : String)
deriving Repr, DecidableEq

/-- `users = self._get_users() | get_user_queryset().filter(groups__in=self._get_groups())`
followed by `users.filter(pk=u.pk).exists()`: the user's pk is in the
configured user-id set, or the user belongs to a configured group. -/
def userInScope (user_ids group_ids : List Nat) (u : User) : Bool :=
  user_ids.contains u.pk || u.groups.any (fun g => group_ids.contains g)

/-- Configuration snapshot of a `DocumentCountQuota` backend. -/
structure DocumentCountQuota where
  document_type_all : Bool
  document_type_ids : List Nat
  documents_limit : Int
  group_ids : List Nat
  user_all : Bool
  user_ids : List Nat
deriving Repr, DecidableEq

/-- The class attribute `error_message` of `DocumentCountQuota`. -/
def DocumentCountQuota.error_message : String := "Document count quota exceeded."

/-- `DocumentCountQuota._allowed`. -/
def DocumentCountQuota.allowed (q : DocumentCountQuota) : Int :=
  q.documents_limit

/-- The filter built by `_get_user_document_count`: the document has a
`target_actions` record with the "document created" verb (and, when an
actor filter is installed, that same record is attributed to that
actor), and, unless `document_type_all`, the document's type is in the
configured set. -/
def rowMatches (q : DocumentCountQuota) (actorFilter : Option Nat)
    (d : DocumentRow) : Bool :=
  d.target_actions.any (fun a =>
    a.verb == event_document_create_id &&
      match actorFilter with
      | some pk => a.actor_pk == some pk
      | none => true)
  && (q.document_type_all || q.document_type_ids.contains d.document_type_id)

/-- `DocumentCountQuota._get_user_document_count`. -/
def DocumentCountQuota.getUserDocumentCount (q : DocumentCountQuota)
    (db : List DocumentRow) (user : Option User) : Nat :=
  match user with
  | some u =>
    if u.is_superuser || u.is_staff then 0
    else if !q.user_all && !(userInScope q.user_ids q.group_ids u) then 0
    else db.countP (rowMatches q (some u.pk))
  | none => db.countP (rowMatches q none)

/-- `DocumentCountQuota.process`. `userArg` is the `user` entry of
`kwargs` (`none` when the key is absent); the method reads it with
`kwargs.get('user')`, i.e. `userArg.join`. The raised message is the
literal of the source, `'Document size quota exceeded.'`. -/
def DocumentCountQuota.process (q : DocumentCountQuota)
    (db : List DocumentRow) (inst : DocumentInstance)
    (userArg : Option (Option User)) : Except PyError Unit :=
  if pkTruthy inst.pk then .ok ()
  else if q.allowed ≤ (q.getUserDocumentCount db userArg.join : Int) then
    .error (.quotaExceeded "Document size quota exceeded.")
  else .ok ()

/-- Configuration snapshot of a `DocumentSizeQuota` backend. -/
structure DocumentSizeQuota where
  document_size_limit : ℚ
  document_type_all : Bool
  document_type_ids : List Nat
  group_ids : List Nat
  user_all : Bool
  user_ids : List Nat
deriving Repr, DecidableEq

/-- `DocumentSizeQuota._allowed`: `document_size_limit * 1024 * 1024`. -/
def DocumentSizeQuota.allowed (q : DocumentSizeQuota) : ℚ :=
  q.document_size_limit * 1024 * 1024

/-- `DocumentSizeQuota.process`. `userArg` is the `user` entry of
`kwargs`; the method reads it with `kwargs['user']`, which raises
`KeyError` when the key is absent. -/
def DocumentSizeQuota.process (q : DocumentSizeQuota)
    (inst : DocumentVersionInstance)
    (userArg : Option (Option User)) : Except PyError Unit :=
  if pkTruthy inst.pk then .ok ()
  else if q.allowed ≤ (inst.file_size : ℚ) then
    if q.document_type_all || q.document_type_ids.contains inst.document_type_id then
      match userArg with
      | none => .error (.keyError "user")
      | some user =>
        if (match user with
            | some u => u.is_superuser || u.is_staff
            | none => false) then .ok ()
        else if q.user_all ||
            (match user with
             | some u => userInScope q.user_ids q.group_ids u
             | none => false) then
          .error (.quotaExceeded "Document size quota exceeded.")
        else .ok ()
    else .ok ()
  else .ok ()

/-- `kwargs.get` on a present key returns its value. -/
theorem option_join_some {α : Type} (x : Option α) :
    (some x : Option (Option α)).join = x := rfl

/-- `countP` of a replicated row: every copy matches or none does. -/
theorem countP_replicate {α : Type} (p : α → Bool) (a : α) (n : Nat) :
    (List.replicate n a).countP p = if p a then n else 0 := by
  induction n with
  | zero => simp
  | succ n ih =>
      cases h : p a <;>
        simp [List.replicate_succ, List.countP_cons, h, ih]

/-- For a non-privileged user inside the actor scope (or with
`user_all` set), `_get_user_document_count` counts the filtered rows. -/
theorem getUserDocumentCount_in_scope (q : DocumentCountQuota) (u : User)
    (hsu : u.is_superuser = false) (hst : u.is_staff = false)
    (hscope : q.user_all = true ∨ userInScope q.user_ids q.group_ids u = true)
    (db : List DocumentRow) :
    q.getUserDocumentCount db (some u) = db.countP (rowMatches q (some u.pk)) := by
  unfold DocumentCountQuota.getUserDocumentCount
  rcases hscope with h | h <;> simp [hsu, hst, h]

/-- C1: for `DocumentCountQuota` with `documents_limit = N` and a new
instance, `process` raises exactly when the computed count is `≥ N`;
with a database of exactly `N` matching creations by an in-scope,
non-privileged actor the attempt raises, and with `N - 1` it does not. -/
theorem c1_documentCountQuota_threshold
    (q : DocumentCountQuota) (N : Nat) (hN : q.documents_limit = (N : Int))
    (u : User) (hsu : u.is_superuser = false) (hst : u.is_staff = false)
    (hscope : q.user_all = true ∨ userInScope q.user_ids q.group_ids u = true)
    (r : DocumentRow) (hr : rowMatches q (some u.pk) r = true)
    (inst : DocumentInstance) (hnew : pkTruthy inst.pk = false) :
    (∀ (db : List DocumentRow) (userArg : Option (Option User)),
        q.process db inst userArg =
            .error (.quotaExceeded "Document size quota exceeded.") ↔
          (N : Int) ≤ (q.getUserDocumentCount db userArg.join : Int)) ∧
    q.process (List.replicate N r) inst (some (some u)) =
      .error (.quotaExceeded "Document size quota exceeded.") ∧
    (1 ≤ N → q.process (List.replicate (N - 1) r) inst (some (some u)) = .ok ()) := by
  have hcount : ∀ m : Nat,
      q.getUserDocumentCount (List.replicate m r) (some u) = m := by
    intro m
    rw [getUserDocumentCount_in_scope q u hsu hst hscope, countP_replicate, if_pos hr]
  refine ⟨?_, ?_, ?_⟩
  · intro db userArg
    simp only [DocumentCountQuota.process, hnew, DocumentCountQuota.allowed, hN]
    split
    · simp_all
    · simp_all
  · simp only [DocumentCountQuota.process, hnew, DocumentCountQuota.allowed, hN,
      option_join_some, hcount]
    simp
  · intro hN1
    simp only [DocumentCountQuota.process, hnew, DocumentCountQuota.allowed, hN,
      option_join_some, hcount]
    have hlt : ¬ ((N : Int) ≤ ((N - 1 : Nat) : Int)) := by
      have : (N - 1 : Nat) < N := by omega
      exact_mod_cast Nat.not_le.mpr this
    simp [hlt]

/-- C1 witness: limit 2, two prior creations by an in-scope user. -/
theorem c1_witness :
    DocumentCountQuota.process ⟨true, [], 2, [], true, []⟩
      (List.replicate 2 ⟨1, [⟨event_document_create_id, some 5⟩]⟩)
      ⟨none, 1⟩ (some (some ⟨5, false, false, []⟩)) =
      .error (.quotaExceeded "Document size quota exceeded.") :=
  (c1_documentCountQuota_threshold ⟨true, [], 2, [], true, []⟩ 2 rfl
    ⟨5, false, false, []⟩ rfl rfl (Or.inl rfl)
    ⟨1, [⟨event_document_create_id, some 5⟩]⟩ (by decide)
    ⟨none, 1⟩ rfl).2.1

/-- C2: for `DocumentSizeQuota` with `document_size_limit = L` MB the
byte threshold `_allowed` is exactly `L * 1048576` and the comparison
is greater-or-equal: for an applicable new version (in-scope type,
in-scope or all-users non-privileged actor) a file of exactly
`L * 1048576` bytes raises `QuotaExceeded`, one byte less does not. -/
theorem c2_documentSizeQuota_threshold
    (q : DocumentSizeQuota) (L : ℚ) (hL : q.document_size_limit = L)
    (s : Nat) (hs : (s : ℚ) = L * 1048576) (hs1 : 1 ≤ s)
    (u : User) (hsu : u.is_superuser = false) (hst : u.is_staff = false)
    (hscope : q.user_all = true ∨ userInScope q.user_ids q.group_ids u = true)
    (pk0 : Option Nat) (hnew : pkTruthy pk0 = false) (ty : Nat)
    (hty : q.document_type_all = true ∨ q.document_type_ids.contains ty = true) :
    q.allowed = L * 1048576 ∧
    q.process ⟨pk0, s, ty⟩ (some (some u)) =
      .error (.quotaExceeded "Document size quota exceeded.") ∧
    q.process ⟨pk0, s - 1, ty⟩ (some (some u)) = .ok () := by
  have hallowed : q.allowed = L * 1048576 := by
    rw [DocumentSizeQuota.allowed, hL, mul_assoc]
    norm_num
  refine ⟨hallowed, ?_, ?_⟩
  · have hle : q.allowed ≤ ((s : Nat) : ℚ) := by rw [hallowed, hs]
    have hty' : q.document_type_all = true ∨ ty ∈ q.document_type_ids := by
      rcases hty with h | h
      · exact Or.inl h
      · exact Or.inr (by simpa using h)
    rcases hty' with h | h <;> rcases hscope with h2 | h2 <;>
      simp [DocumentSizeQuota.process, hnew, hle, h, h2, hsu, hst]
  · have hlt : ¬ (q.allowed ≤ ((s - 1 : Nat) : ℚ)) := by
      rw [hallowed, ← hs]
      rw [not_le]
      exact_mod_cast Nat.sub_lt hs1 one_pos
    simp [DocumentSizeQuota.process, hnew, hlt]

/-- C2 witness: limit 2 MB; 2097152 bytes raises, 2097151 does not. -/
theorem c2_witness :
    DocumentSizeQuota.process ⟨2, true, [], [], true, []⟩ ⟨none, 2097152, 1⟩
      (some (some ⟨5, false, false, []⟩)) =
      .error (.quotaExceeded "Document size quota exceeded.") ∧
    DocumentSizeQuota.process ⟨2, true, [], [], true, []⟩ ⟨none, 2097151, 1⟩
      (some (some ⟨5, false, false, []⟩)) = .ok () := by
  have h := c2_documentSizeQuota_threshold ⟨2, true, [], [], true, []⟩ 2 rfl
    2097152 (by norm_num) (by norm_num) ⟨5, false, false, []⟩ rfl rfl
    (Or.inl rfl) none rfl 1 (Or.inl rfl)
  exact ⟨h.2.1, h.2.2⟩

/-- C3 (code bug): the source comment says admins are always excluded
and the spec says privileged actors never raise, but with
`documents_limit = 0` a superuser's zero count still satisfies
`0 >= 0`, so `DocumentCountQuota.process` raises on a new document. -/
theorem c3_superuser_blocked_at_zero_limit :
    DocumentCountQuota.process ⟨true, [], 0, [], true, []⟩ [] ⟨none, 1⟩
      (some (some ⟨1, true, false, []⟩)) =
      .error (.quotaExceeded "Document size quota exceeded.") := rfl

/-- C4 counterexample: with `user_all = false`, empty user and group
scopes and `documents_limit = 0`, an out-of-scope user's zero count
still satisfies `0 >= 0`, so `process` raises on a new document. -/
theorem c4_counterexample_zero_limit :
    DocumentCountQuota.process ⟨true, [], 0, [], false, []⟩ [] ⟨none, 1⟩
      (some (some ⟨7, false, false, []⟩)) =
      .error (.quotaExceeded "Document size quota exceeded.") := rfl

/-- C4 (amended): with `user_all = false` and a user outside the
explicit user/group scope, `DocumentCountQuota.process` never raises
provided `documents_limit ≥ 1`; the out-of-scope short circuit yields
usage 0, which still trips a limit `≤ 0`. -/
theorem c4_amended_out_of_scope_never_raises
    (q : DocumentCountQuota) (hall : q.user_all = false)
    (u : User) (hscope : userInScope q.user_ids q.group_ids u = false)
    (hlim : 1 ≤ q.documents_limit)
    (db : List DocumentRow) (inst : DocumentInstance) :
    q.process db inst (some (some u)) = .ok () := by
  have hcount : q.getUserDocumentCount db (some u) = 0 := by
    unfold DocumentCountQuota.getUserDocumentCount
    cases hp : u.is_superuser || u.is_staff <;> simp [hp, hall, hscope]
  have hnot : ¬ (q.allowed ≤ ((q.getUserDocumentCount db (some u) : Nat) : Int)) := by
    rw [hcount, DocumentCountQuota.allowed]
    omega
  cases hp : pkTruthy inst.pk <;>
    simp [DocumentCountQuota.process, hp, option_join_some, hnot]

/-- C4 witness: limit 3, out-of-scope user pk 7, non-empty database. -/
theorem c4_witness :
    DocumentCountQuota.process ⟨true, [], 3, [], false, [2]⟩
      (List.replicate 9 ⟨1, [⟨event_document_create_id, some 7⟩]⟩)
      ⟨none, 1⟩ (some (some ⟨7, false, false, [4]⟩)) = .ok () :=
  c4_amended_out_of_scope_never_raises ⟨true, [], 3, [], false, [2]⟩ rfl
    ⟨7, false, false, [4]⟩ (by decide) (by decide)
    (List.replicate 9 ⟨1, [⟨event_document_create_id, some 7⟩]⟩) ⟨none, 1⟩

/-- C5 counterexample: count quota scoped to type 1 with limit 1; a
new candidate document of type 2 (outside the scope) still raises,
because `DocumentCountQuota.process` never reads the candidate's type:
the type scope only filters which prior documents are counted. -/
theorem c5_counterexample_candidate_type_ignored :
    DocumentCountQuota.process ⟨false, [1], 1, [], true, []⟩
      [⟨1, [⟨event_document_create_id, some 7⟩]⟩] ⟨none, 2⟩
      (some (some ⟨7, false, false, []⟩)) =
      .error (.quotaExceeded "Document size quota exceeded.") := rfl

/-- C5 (amended): for `DocumentSizeQuota` an out-of-scope parent
document type never raises; for `DocumentCountQuota` the candidate's
own type is never consulted (`process` depends on the instance only
through its `pk`) — the type scope only filters the counted rows. -/
theorem c5_amended_type_scope
    (qs : DocumentSizeQuota) (hall : qs.document_type_all = false)
    (inst : DocumentVersionInstance)
    (hty : qs.document_type_ids.contains inst.document_type_id = false)
    (userArg : Option (Option User)) :
    qs.process inst userArg = .ok () ∧
    ∀ (qc : DocumentCountQuota) (db : List DocumentRow)
      (i j : DocumentInstance), i.pk = j.pk →
      ∀ ua, qc.process db i ua = qc.process db j ua := by
  constructor
  · cases hp : pkTruthy inst.pk <;>
      cases hs : decide (qs.allowed ≤ (inst.file_size : ℚ)) <;>
        simp_all [DocumentSizeQuota.process, hall]
  · intro qc db i j hpk ua
    simp [DocumentCountQuota.process, hpk]

/-- C5 witness: size quota scoped to type 3, oversized version of
type 9 with an in-scope user is allowed. -/
theorem c5_witness :
    DocumentSizeQuota.process ⟨1, false, [3], [], true, []⟩
      ⟨none, 99999999, 9⟩ (some (some ⟨7, false, false, []⟩)) = .ok () :=
  (c5_amended_type_scope ⟨1, false, [3], [], true, []⟩ rfl
    ⟨none, 99999999, 9⟩ (by decide) (some (some ⟨7, false, false, []⟩))).1

/-- C6 (code bug): the class attribute `error_message` of
`DocumentCountQuota` is "Document count quota exceeded.", but when the
count check fires `process` raises `QuotaExceeded` with the size
quota's message "Document size quota exceeded.", so the two backends'
errors are not distinguished. -/
theorem c6_count_message_mismatch :
    DocumentCountQuota.process ⟨true, [], 0, [], true, []⟩ [] ⟨none, 1⟩
      (some none) =
      .error (.quotaExceeded "Document size quota exceeded.") ∧
    "Document size quota exceeded." ≠ DocumentCountQuota.error_message := by
  exact ⟨rfl, by decide⟩

/-- C7: an instance whose `pk` is a non-zero (truthy) persisted
identity is never checked: both backends return without raising,
whatever the configuration, database, user argument, count or size. -/
theorem c7_persisted_instance_never_raises (n : Nat) (hn : n ≠ 0) :
    (∀ (qc : DocumentCountQuota) (db : List DocumentRow)
        (inst : DocumentInstance), inst.pk = some n →
        ∀ ua, qc.process db inst ua = .ok ()) ∧
    (∀ (qs : DocumentSizeQuota) (inst : DocumentVersionInstance),
        inst.pk = some n →
        ∀ ua, qs.process inst ua = .ok ()) := by
  have hp : pkTruthy (some n) = true := by simp [pkTruthy, hn]
  constructor
  · intro qc db inst hpk ua
    simp [DocumentCountQuota.process, hpk, hp]
  · intro qs inst hpk ua
    simp [DocumentSizeQuota.process, hpk, hp]

/-- C7 witness: pk 1, zero limits, absent user key, oversized file. -/
theorem c7_witness :
    DocumentCountQuota.process ⟨true, [], 0, [], true, []⟩ [] ⟨some 1, 1⟩
      none = .ok () ∧
    DocumentSizeQuota.process ⟨0, true, [], [], true, []⟩ ⟨some 1, 5, 1⟩
      none = .ok () :=
  ⟨(c7_persisted_instance_never_raises 1 (by decide)).1
      ⟨true, [], 0, [], true, []⟩ [] ⟨some 1, 1⟩ rfl none,
    (c7_persisted_instance_never_raises 1 (by decide)).2
      ⟨0, true, [], [], true, []⟩ ⟨some 1, 5, 1⟩ rfl none⟩

/-- C8: with no acting user (`user` absent or `None`), the usage count
is the global count of documents carrying the "document created"
audit-action record, restricted only by the document-type scope (no
actor restriction), and on a new instance `process` raises exactly
when that global count is `≥ documents_limit`. -/
theorem c8_global_count_without_user
    (q : DocumentCountQuota) (db : List DocumentRow)
    (inst : DocumentInstance) (hnew : pkTruthy inst.pk = false)
    (userArg : Option (Option User)) (huser : userArg.join = none) :
    q.getUserDocumentCount db none = db.countP (rowMatches q none) ∧
    (∀ d, rowMatches q none d =
        (d.target_actions.any (fun a => a.verb == event_document_create_id) &&
          (q.document_type_all || q.document_type_ids.contains d.document_type_id))) ∧
    (q.process db inst userArg =
        .error (.quotaExceeded "Document size quota exceeded.") ↔
      q.documents_limit ≤ (db.countP (rowMatches q none) : Int)) := by
  refine ⟨rfl, ?_, ?_⟩
  · intro d
    simp [rowMatches]
  · simp only [DocumentCountQuota.process, hnew, huser,
      DocumentCountQuota.allowed, DocumentCountQuota.getUserDocumentCount]
    split
    · simp_all
    · simp_all

/-- C8 witness: absent user key, limit 1, one created document. -/
theorem c8_witness :
    DocumentCountQuota.process ⟨true, [], 1, [], true, []⟩
      [⟨1, [⟨event_document_create_id, none⟩]⟩] ⟨none, 1⟩ none =
      .error (.quotaExceeded "Document size quota exceeded.") :=
  (c8_global_count_without_user ⟨true, [], 1, [], true, []⟩
      [⟨1, [⟨event_document_create_id, none⟩]⟩] ⟨none, 1⟩ rfl none
      rfl).2.2.mpr (by decide)

/-- C9: for an oversized new version of an in-scope type with the
`user` key bound to `None`, `DocumentSizeQuota.process` allows when
`user_all` is false and raises when it is true; with a supplied
non-privileged user it raises exactly when the user is in the
explicit user/group scope or `user_all` holds. -/
theorem c9_size_quota_actor_scope
    (q : DocumentSizeQuota) (inst : DocumentVersionInstance)
    (hnew : pkTruthy inst.pk = false)
    (hsize : q.allowed ≤ (inst.file_size : ℚ))
    (hty : q.document_type_all = true ∨
      q.document_type_ids.contains inst.document_type_id = true) :
    (q.user_all = false → q.process inst (some none) = .ok ()) ∧
    (q.user_all = true → q.process inst (some none) =
        .error (.quotaExceeded "Document size quota exceeded.")) ∧
    (∀ u : User, u.is_superuser = false → u.is_staff = false →
        userInScope q.user_ids q.group_ids u = true →
        q.process inst (some (some u)) =
          .error (.quotaExceeded "Document size quota exceeded.")) ∧
    (∀ u : User, q.user_all = false →
        userInScope q.user_ids q.group_ids u = false →
        q.process inst (some (some u)) = .ok ()) := by
  have hty' : q.document_type_all = true ∨
      inst.document_type_id ∈ q.document_type_ids := by
    rcases hty with h | h
    · exact Or.inl h
    · exact Or.inr (by simpa using h)
  refine ⟨?_, ?_, ?_, ?_⟩
  · intro hall
    rcases hty' with h | h <;>
      simp [DocumentSizeQuota.process, hnew, hsize, h, hall]
  · intro hall
    rcases hty' with h | h <;>
      simp [DocumentSizeQuota.process, hnew, hsize, h, hall]
  · intro u hsu hst hscope
    rcases hty' with h | h <;>
      simp [DocumentSizeQuota.process, hnew, hsize, h, hsu, hst, hscope]
  · intro u hall hscope
    cases hsu : u.is_superuser <;> cases hst : u.is_staff <;>
      rcases hty' with h | h <;>
        simp [DocumentSizeQuota.process, hnew, hsize, h, hall, hscope, hsu, hst]

/-- C9 witness: 2 MB limit, 3000000-byte version, type scope all. -/
theorem c9_witness :
    DocumentSizeQuota.process ⟨2, true, [], [], false, []⟩
      ⟨none, 3000000, 1⟩ (some none) = .ok () ∧
    DocumentSizeQuota.process ⟨2, true, [], [5], false, [9]⟩
      ⟨none, 3000000, 1⟩ (some (some ⟨9, false, false, []⟩)) =
      .error (.quotaExceeded "Document size quota exceeded.") :=
  ⟨(c9_size_quota_actor_scope ⟨2, true, [], [], false, []⟩
      ⟨none, 3000000, 1⟩ rfl (by norm_num [DocumentSizeQuota.allowed])
      (Or.inl rfl)).1 rfl,
    (c9_size_quota_actor_scope ⟨2, true, [], [5], false, [9]⟩
      ⟨none, 3000000, 1⟩ rfl (by norm_num [DocumentSizeQuota.allowed])
      (Or.inl rfl)).2.2.1 ⟨9, false, false, []⟩ rfl rfl (by decide)⟩

/-- C10: once the size and type-scope checks pass on a new version,
`DocumentSizeQuota.process` reads the `user` keyword unconditionally,
so an absent `user` key yields a `KeyError`-style lookup failure
rather than an allow; `DocumentCountQuota.process` reads the key with
a defaulting lookup and treats an absent key exactly like `None`. -/
theorem c10_missing_user_key
    (q : DocumentSizeQuota) (inst : DocumentVersionInstance)
    (hnew : pkTruthy inst.pk = false)
    (hsize : q.allowed ≤ (inst.file_size : ℚ))
    (hty : q.document_type_all = true ∨
      q.document_type_ids.contains inst.document_type_id = true) :
    q.process inst none = .error (.keyError "user") ∧
    (∀ (qc : DocumentCountQuota) (db : List DocumentRow)
        (instD : DocumentInstance),
        qc.process db instD none = qc.process db instD (some none)) := by
  have hty' : q.document_type_all = true ∨
      inst.document_type_id ∈ q.document_type_ids := by
    rcases hty with h | h
    · exact Or.inl h
    · exact Or.inr (by simpa using h)
  constructor
  · rcases hty' with h | h <;>
      simp [DocumentSizeQuota.process, hnew, hsize, h]
  · intro qc db instD
    rfl

/-- C10 witness: oversized in-scope version with no user key. -/
theorem c10_witness :
    DocumentSizeQuota.process ⟨2, true, [], [], true, []⟩
      ⟨none, 3000000, 1⟩ none = .error (.keyError "user") :=
  (c10_missing_user_key ⟨2, true, [], [], true, []⟩ ⟨none, 3000000, 1⟩
    rfl (by norm_num [DocumentSizeQuota.allowed]) (Or.inl rfl)).1

end Quotas
